import Mathlib

/-!
Verification of the scraping subsystem of the B2B repository against its
natural-language specification.  Each definition below is a shallow embedding
of a function or loop of the Python source; file and line references point
into the repository.  Times are modelled as natural numbers (seconds),
exceptions as explicit sum types, and the wrapped network operation of the
circuit breaker / retry policy as an `Except` value describing the outcome of
one invocation.
-/

namespace B2B

/-! ## Circuit breaker (src/utils/circuit_breaker.py) -/

/-- CircuitState enum (circuit_breaker.py lines 14-18).  `opened` renders the
Python member `OPEN` (the bare word is a Lean keyword). -/
inductive CircuitState where
  | closed
  | opened
  | half_open
  deriving DecidableEq, Repr

/-- The mutable attributes of a `CircuitBreaker` instance
(circuit_breaker.py lines 24-49).  `half_open_success_threshold` is set to 2
by `__init__`; we keep it as a field so that statements can speak about it.
`expected_exception` is a type filter in Python; the embedding models calls
whose failures match that filter (the only ones the claims exercise). -/
structure CircuitBreaker where
  failure_threshold : Nat
  timeout : Nat
  state : CircuitState
  failure_count : Nat
  success_count : Nat
  last_failure_time : Option Nat
  half_open_success_threshold : Nat
  deriving DecidableEq, Repr

/-- `CircuitBreaker.__init__` (circuit_breaker.py lines 24-49). -/
def CircuitBreaker.init (failure_threshold timeout : Nat) : CircuitBreaker :=
  { failure_threshold := failure_threshold
    timeout := timeout
    state := .closed
    failure_count := 0
    success_count := 0
    last_failure_time := none
    half_open_success_threshold := 2 }

/-- `_should_attempt_reset` (circuit_breaker.py lines 94-100):
true when no failure is recorded, or when `timeout` seconds have elapsed
since the last failure. -/
def CircuitBreaker.should_attempt_reset (b : CircuitBreaker) (now : Nat) : Bool :=
  match b.last_failure_time with
  | none => true
  | some t => b.timeout ≤ now - t

/-- `_on_success` (circuit_breaker.py lines 102-122). -/
def CircuitBreaker.on_success (b : CircuitBreaker) : CircuitBreaker :=
  if b.state = .half_open then
    let b2 := { b with success_count := b.success_count + 1 }
    if b2.half_open_success_threshold ≤ b2.success_count then
      { b2 with state := .closed, failure_count := 0, success_count := 0 }
    else b2
  else if b.state = .closed then
    if 0 < b.failure_count then { b with failure_count := 0 } else b
  else b

/-- `_on_failure` (circuit_breaker.py lines 124-150); `now` is the value of
`datetime.utcnow()` at the failure. -/
def CircuitBreaker.on_failure (b : CircuitBreaker) (now : Nat) : CircuitBreaker :=
  let b2 := { b with failure_count := b.failure_count + 1, last_failure_time := some now }
  if b2.state = .half_open then
    { b2 with state := .opened, success_count := 0 }
  else if b2.state = .closed then
    if b2.failure_threshold ≤ b2.failure_count then { b2 with state := .opened } else b2
  else b2

/-- Outcome of one `CircuitBreaker.call`: `rejected` is the branch that raises
the circuit-open exception without invoking the wrapped operation
(circuit_breaker.py lines 78-82); the other two constructors arise from
actually invoking it. -/
inductive CallResult (ε α : Type) where
  | rejected
  | ok (v : α)
  | failed (e : ε)
  deriving DecidableEq, Repr

/-- The "attempt function call" part of `call` (circuit_breaker.py
lines 84-92): invoke the operation, then `_on_success` or `_on_failure`.
`op` is the outcome of this invocation of the wrapped function. -/
def CircuitBreaker.attempt {ε α : Type} (b : CircuitBreaker) (now : Nat)
    (op : Except ε α) : CallResult ε α × CircuitBreaker :=
  match op with
  | .ok v => (.ok v, b.on_success)
  | .error e => (.failed e, b.on_failure now)

/-- `CircuitBreaker.call` (circuit_breaker.py lines 58-92). -/
def CircuitBreaker.call {ε α : Type} (b : CircuitBreaker) (now : Nat)
    (op : Except ε α) : CallResult ε α × CircuitBreaker :=
  if b.state = .opened then
    if b.should_attempt_reset now then
      ({ b with state := .half_open }).attempt now op
    else (.rejected, b)
  else b.attempt now op

/-- A sequence of calls whose wrapped operation fails each time, issued at the
listed times. -/
def CircuitBreaker.runFailures {ε : Type} (b : CircuitBreaker) (e : ε) :
    List Nat → CircuitBreaker
  | [] => b
  | t :: ts => CircuitBreaker.runFailures ((b.call t (Except.error e : Except ε Unit)).2) e ts

/-- `n` consecutive calls whose wrapped operation succeeds, all at time `now`. -/
def CircuitBreaker.runSuccesses {α : Type} (b : CircuitBreaker) (now : Nat) (v : α) :
    Nat → CircuitBreaker
  | 0 => b
  | n + 1 => CircuitBreaker.runSuccesses ((b.call now (Except.ok v : Except Unit α)).2) now v n

/-! ## Retry policy (src/utils/retry.py) -/

/-- Result of `retry_with_backoff`: the wrapper returns the function value,
re-raises the last error (`raise` at line 66), or raises
`RuntimeError("Unexpected retry failure")` when the while loop body never
ran (retry.py lines 85-89). -/
inductive RetryOutcome (ε α : Type) where
  | ok (v : α)
  | raised (e : ε)
  | runtimeError
  deriving DecidableEq, Repr

/-- The while loop of `retry_with_backoff` (retry.py lines 49-89).
`op i` is the outcome of the i-th invocation (0-based) of the wrapped
function; every raised error matches `retryable_exceptions` (the decorators
in the source pass a catch-all tuple).  The second component counts how many
times the wrapped function is invoked.  `remaining` is
`max_attempts - attempt`, so the source's re-raise condition
`attempt + 1 >= max_attempts` is `remaining = 1`, i.e. the predecessor is 0.
Backoff sleeping has no observable effect in this pure model. -/
def retryLoop {ε α : Type} (op : Nat → Except ε α) :
    Nat → Nat → RetryOutcome ε α × Nat
  | _, 0 => (.runtimeError, 0)
  | attempt, remaining + 1 =>
    match op attempt with
    | .ok v => (.ok v, 1)
    | .error e =>
      if remaining = 0 then (.raised e, 1)
      else
        let r := retryLoop op (attempt + 1) remaining
        (r.1, r.2 + 1)

/-- `retry_with_backoff` (retry.py lines 21-92), starting at attempt 0 with
`max_attempts` loop iterations available. -/
def retry_with_backoff {ε α : Type} (max_attempts : Nat) (op : Nat → Except ε α) :
    RetryOutcome ε α × Nat :=
  retryLoop op 0 max_attempts

/-- An operation that fails on its first `K` invocations (with error
`errs i` on the i-th) and succeeds with `v` from invocation `K` on. -/
def failThenSucceed {ε α : Type} (K : Nat) (errs : Nat → ε) (v : α) :
    Nat → Except ε α :=
  fun i => if i < K then .error (errs i) else .ok v

/-! ### Helper lemmas about single circuit-breaker steps -/

theorem cb_call_not_opened {ε α : Type} (b : CircuitBreaker) (now : Nat)
    (op : Except ε α) (h : b.state ≠ .opened) :
    b.call now op = b.attempt now op := by
  simp [CircuitBreaker.call, h]

theorem cb_on_failure_closed (b : CircuitBreaker) (now : Nat) (h : b.state = .closed) :
    b.on_failure now =
      if b.failure_threshold ≤ b.failure_count + 1 then
        { b with state := .opened, failure_count := b.failure_count + 1,
                 last_failure_time := some now }
      else
        { b with failure_count := b.failure_count + 1, last_failure_time := some now } := by
  simp [CircuitBreaker.on_failure, h]

theorem cb_on_success_half_open (b : CircuitBreaker) (h : b.state = .half_open) :
    b.on_success =
      if b.half_open_success_threshold ≤ b.success_count + 1 then
        { b with state := .closed, failure_count := 0, success_count := 0 }
      else
        { b with success_count := b.success_count + 1 } := by
  simp [CircuitBreaker.on_success, h]

theorem cb_runFailures_opens {ε : Type} (e : ε) :
    ∀ (ts : List Nat) (b : CircuitBreaker),
      b.state = .closed →
      b.failure_count + ts.length = b.failure_threshold →
      ts ≠ [] →
      (b.runFailures e ts).state = .opened ∧
      (b.runFailures e ts).failure_count = b.failure_threshold ∧
      (b.runFailures e ts).last_failure_time = ts.getLast? ∧
      (b.runFailures e ts).timeout = b.timeout := by
  intro ts
  induction ts with
  | nil => intro b _ _ hne; exact absurd rfl hne
  | cons t ts ih =>
    intro b hst hcnt _
    have hb2 : (b.call t (Except.error e : Except ε Unit)).2 = b.on_failure t := by
      rw [cb_call_not_opened]
      · rfl
      · rw [hst]; intro h; cases h
    cases ts with
    | nil =>
      have hc1 : b.failure_count + 1 = b.failure_threshold := by
        simpa using hcnt
      have hthr : b.failure_threshold ≤ b.failure_count + 1 := by omega
      simp [CircuitBreaker.runFailures, hb2, cb_on_failure_closed b t hst, hthr,
        hc1, List.getLast?]
    | cons t2 ts2 =>
      have hlt : ¬ b.failure_threshold ≤ b.failure_count + 1 := by
        simp at hcnt; omega
      have hstep : b.on_failure t =
          { b with failure_count := b.failure_count + 1, last_failure_time := some t } := by
        rw [cb_on_failure_closed b t hst, if_neg hlt]
      have := ih { b with failure_count := b.failure_count + 1, last_failure_time := some t }
        (by simpa using hst) (by simp at hcnt ⊢; omega) (by intro h; cases h)
      simpa [CircuitBreaker.runFailures, hb2, hstep, List.getLast?] using this

theorem cb_runSuccesses_closes {α : Type} (v : α) :
    ∀ (n : Nat) (b : CircuitBreaker) (now : Nat),
      b.state = .half_open →
      b.success_count + n = b.half_open_success_threshold →
      1 ≤ n →
      (b.runSuccesses now v n).state = .closed ∧
      (b.runSuccesses now v n).failure_count = 0 ∧
      (b.runSuccesses now v n).success_count = 0 := by
  intro n
  induction n with
  | zero => intro b now _ _ h; omega
  | succ n ih =>
    intro b now hst hcnt _
    have hb2 : (b.call now (Except.ok v : Except Unit α)).2 = b.on_success := by
      rw [cb_call_not_opened]
      · rfl
      · rw [hst]; intro h; cases h
    cases n with
    | zero =>
      have hthr : b.half_open_success_threshold ≤ b.success_count + 1 := by omega
      simp [CircuitBreaker.runSuccesses, hb2, cb_on_success_half_open b hst, hthr]
    | succ n2 =>
      have hlt : ¬ b.half_open_success_threshold ≤ b.success_count + 1 := by omega
      have hstep : b.on_success = { b with success_count := b.success_count + 1 } := by
        rw [cb_on_success_half_open b hst, if_neg hlt]
      have := ih { b with success_count := b.success_count + 1 }
        now (by simpa using hst) (by simp; omega) (by omega)
      simpa [CircuitBreaker.runSuccesses, hb2, hstep] using this

/-- C2: starting from a freshly initialized (CLOSED, failure_count 0) breaker,
exactly `failure_threshold` consecutive failed calls (at times `ts`) leave the
breaker OPEN with `last_failure_time` recording the final failure, and a
subsequent call made before `timeout` seconds have elapsed since that failure
returns the circuit-open rejection without invoking the wrapped operation
(and leaves the breaker unchanged). -/
theorem c2_circuit_opens_after_threshold_failures {ε α : Type}
    (ft timeout : Nat) (ts : List Nat) (tl now : Nat) (e : ε) (op : Except ε α)
    (hft : 1 ≤ ft)
    (hlen : ts.length = ft)
    (hlast : ts.getLast? = some tl)
    (h1 : tl ≤ now)
    (h2 : now < tl + timeout) :
    ((CircuitBreaker.init ft timeout).runFailures e ts).state = .opened ∧
    ((CircuitBreaker.init ft timeout).runFailures e ts).failure_count = ft ∧
    ((CircuitBreaker.init ft timeout).runFailures e ts).last_failure_time = some tl ∧
    (((CircuitBreaker.init ft timeout).runFailures e ts).call now op).1 = .rejected ∧
    (((CircuitBreaker.init ft timeout).runFailures e ts).call now op).2 =
      (CircuitBreaker.init ft timeout).runFailures e ts := by
  have hne : ts ≠ [] := by
    intro h; rw [h] at hlen; simp at hlen; omega
  obtain ⟨hs, hc, hl, hto⟩ := cb_runFailures_opens e ts (CircuitBreaker.init ft timeout)
    rfl (by simpa [CircuitBreaker.init] using hlen) hne
  rw [hlast] at hl
  have hto2 : (CircuitBreaker.init ft timeout).timeout = timeout := rfl
  have hready : ((CircuitBreaker.init ft timeout).runFailures e ts).should_attempt_reset now
      = false := by
    simp [CircuitBreaker.should_attempt_reset, hl, hto, hto2]
    omega
  refine ⟨hs, by rw [hc]; simp [CircuitBreaker.init], hl, ?_, ?_⟩ <;>
    simp [CircuitBreaker.call, hs, hready]

/-- Witness for C2 at failure_threshold 2, timeout 60, failures at times 3
and 10, probe call at time 30. -/
theorem c2_circuit_opens_after_threshold_failures_witness :
    ((CircuitBreaker.init 2 60).runFailures () [3, 10]).state = .opened ∧
    ((CircuitBreaker.init 2 60).runFailures () [3, 10]).failure_count = 2 ∧
    ((CircuitBreaker.init 2 60).runFailures () [3, 10]).last_failure_time = some 10 ∧
    (((CircuitBreaker.init 2 60).runFailures () [3, 10]).call 30
        (Except.ok () : Except Unit Unit)).1 = .rejected ∧
    (((CircuitBreaker.init 2 60).runFailures () [3, 10]).call 30
        (Except.ok () : Except Unit Unit)).2 =
      (CircuitBreaker.init 2 60).runFailures () [3, 10] :=
  c2_circuit_opens_after_threshold_failures 2 60 [3, 10] 10 30 () (Except.ok ())
    (by decide) (by decide) (by decide) (by decide) (by decide)

/-- C3: for an OPEN breaker whose last failure was `timeout` or more seconds
ago, a call is let through with the state first set to HALF_OPEN; from the
half-open state, `half_open_success_threshold` consecutive successes close
the circuit with both counters reset to 0; and a single failure while
HALF_OPEN reopens it immediately with success_count 0 and the failure time
updated. -/
theorem c3_half_open_transitions {ε α : Type} (b : CircuitBreaker)
    (t now now2 : Nat) (e : ε) (v : α) (op : Except ε α)
    (hs : b.state = .opened)
    (hl : b.last_failure_time = some t)
    (h1 : t ≤ now)
    (h2 : t + b.timeout ≤ now)
    (hsc : b.success_count = 0)
    (hth : 1 ≤ b.half_open_success_threshold) :
    b.call now op = ({ b with state := .half_open }).attempt now op ∧
    (({ b with state := .half_open }).runSuccesses now2 v
        b.half_open_success_threshold).state = .closed ∧
    (({ b with state := .half_open }).runSuccesses now2 v
        b.half_open_success_threshold).failure_count = 0 ∧
    (({ b with state := .half_open }).runSuccesses now2 v
        b.half_open_success_threshold).success_count = 0 ∧
    (({ b with state := .half_open }).call now2 (Except.error e : Except ε α)).1
        = .failed e ∧
    (({ b with state := .half_open }).call now2 (Except.error e : Except ε α)).2 =
      { b with state := .opened, failure_count := b.failure_count + 1,
               success_count := 0, last_failure_time := some now2 } := by
  have hready : b.should_attempt_reset now = true := by
    simp [CircuitBreaker.should_attempt_reset, hl]
    omega
  have hclose := cb_runSuccesses_closes v b.half_open_success_threshold
    { b with state := .half_open } now2 rfl (by simp [hsc]) hth
  refine ⟨by simp [CircuitBreaker.call, hs, hready], hclose.1, hclose.2.1, hclose.2.2, ?_, ?_⟩ <;>
    simp [CircuitBreaker.call, CircuitBreaker.attempt, CircuitBreaker.on_failure]

/-- Witness for C3: breaker with threshold 5, timeout 60, OPEN after 5
failures, last failure at time 0, probed at time 60, half-open calls at
time 70. -/
theorem c3_half_open_transitions_witness :
    (CircuitBreaker.call ⟨5, 60, .opened, 5, 0, some 0, 2⟩ 60 (Except.ok () : Except Unit Unit))
        = (CircuitBreaker.attempt ⟨5, 60, .half_open, 5, 0, some 0, 2⟩ 60 (Except.ok ())) ∧
    (CircuitBreaker.runSuccesses ⟨5, 60, .half_open, 5, 0, some 0, 2⟩ 70 () 2).state = .closed ∧
    (CircuitBreaker.runSuccesses ⟨5, 60, .half_open, 5, 0, some 0, 2⟩ 70 () 2).failure_count = 0 ∧
    (CircuitBreaker.runSuccesses ⟨5, 60, .half_open, 5, 0, some 0, 2⟩ 70 () 2).success_count = 0 ∧
    (CircuitBreaker.call ⟨5, 60, .half_open, 5, 0, some 0, 2⟩ 70
        (Except.error () : Except Unit Unit)).1 = .failed () ∧
    (CircuitBreaker.call ⟨5, 60, .half_open, 5, 0, some 0, 2⟩ 70
        (Except.error () : Except Unit Unit)).2 = ⟨5, 60, .opened, 6, 0, some 70, 2⟩ :=
  c3_half_open_transitions ⟨5, 60, .opened, 5, 0, some 0, 2⟩ 0 60 70 () () (Except.ok ())
    rfl rfl (by decide) (by decide) rfl (by decide)

/-! ### Retry policy theorems -/

theorem retryLoop_succ {ε α : Type} (op : Nat → Except ε α) (attempt remaining : Nat) :
    retryLoop op attempt (remaining + 1) =
      (match op attempt with
       | .ok v => (.ok v, 1)
       | .error e =>
         if remaining = 0 then (.raised e, 1)
         else
           let r := retryLoop op (attempt + 1) remaining
           (r.1, r.2 + 1)) := rfl

theorem retryLoop_succeeds {ε α : Type} (K : Nat) (errs : Nat → ε) (v : α) :
    ∀ (r a : Nat), a ≤ K → K < a + r →
      retryLoop (failThenSucceed K errs v) a r = (.ok v, K - a + 1) := by
  intro r
  induction r with
  | zero => intro a _ h2; omega
  | succ r ih =>
    intro a h1 h2
    rcases Nat.lt_or_ge a K with hlt | hge
    · have hr : r ≠ 0 := by omega
      have hih := ih (a + 1) (by omega) (by omega)
      have hidx : K - (a + 1) + 1 + 1 = K - a + 1 := by omega
      rw [retryLoop_succ]
      simp [failThenSucceed, hlt, hr, hih, hidx, Prod.ext_iff]
    · have heq : a = K := by omega
      subst heq
      rw [retryLoop_succ]
      simp [failThenSucceed]

theorem retryLoop_exhausts {ε α : Type} (K : Nat) (errs : Nat → ε) (v : α) :
    ∀ (r a : Nat), 1 ≤ r → a + r ≤ K →
      retryLoop (failThenSucceed K errs v) a r = (.raised (errs (a + r - 1)), r) := by
  intro r
  induction r with
  | zero => intro a h1 _; omega
  | succ r ih =>
    intro a _ h2
    have hlt : a < K := by omega
    rw [retryLoop_succ]
    cases r with
    | zero =>
      simp [failThenSucceed, hlt]
    | succ r2 =>
      have hih := ih (a + 1) (by omega) (by omega)
      have hidx : a + 1 + (r2 + 1) - 1 = a + (r2 + 1 + 1) - 1 := by omega
      rw [hidx] at hih
      simp [failThenSucceed, hlt, hih]

/-- C4: for an operation that fails on its first K invocations and then
succeeds (all errors retryable), `retry_with_backoff` with
`max_attempts > K` returns the success value after invoking the operation
exactly K+1 times, and with `1 ≤ max_attempts ≤ K` re-raises the error of the
final invocation unchanged after invoking the operation exactly
`max_attempts` times. -/
theorem c4_retry_counts_and_result {ε α : Type} (K max_attempts : Nat)
    (errs : Nat → ε) (v : α) :
    (K < max_attempts →
      retry_with_backoff max_attempts (failThenSucceed K errs v) = (.ok v, K + 1)) ∧
    (1 ≤ max_attempts → max_attempts ≤ K →
      retry_with_backoff max_attempts (failThenSucceed K errs v)
        = (.raised (errs (max_attempts - 1)), max_attempts)) := by
  constructor
  · intro h
    have := retryLoop_succeeds K errs v max_attempts 0 (by omega) (by omega)
    simpa [retry_with_backoff] using this
  · intro h1 h2
    have := retryLoop_exhausts K errs v max_attempts 0 h1 (by omega)
    simpa [retry_with_backoff] using this

/-- Witness for C4 with K = 2: 4 attempts reach the success on the third
invocation; 2 attempts exhaust and re-raise the second invocation's error. -/
theorem c4_retry_counts_and_result_witness :
    retry_with_backoff 4 (failThenSucceed 2 (fun i => i) ()) = (.ok (), 3) ∧
    retry_with_backoff 2 (failThenSucceed 2 (fun i => i) ()) = (.raised 1, 2) :=
  ⟨(c4_retry_counts_and_result 2 4 (fun i => i) ()).1 (by decide),
   (c4_retry_counts_and_result 2 2 (fun i => i) ()).2 (by decide) (by decide)⟩

/-! ## Records and the orchestrator (src/scraper/multi_source_scraper.py) -/

/-- A scraped review/complaint dictionary as built by the adapters (keys
`text`, `rating`, `date`, `source`; adapter-specific extra keys such as
`tool` and `metadata` are not needed by the claims). -/
structure Record where
  text : String
  rating : Option Nat
  date : Option String
  source : String
  deriving DecidableEq, Repr

/-- One adapter invocation inside `scrape_all_sources`: its name and either
the record list it returned or the exception it raised. -/
structure SourceResult where
  name : String
  outcome : Except String (List Record)

/-- One numbered try/except block of `scrape_all_sources`
(multi_source_scraper.py, e.g. lines 46-61): a raising adapter is caught at
its boundary and contributes nothing; a non-empty returned list extends
`all_reviews` and adds the source to `sources_succeeded`; an empty returned
list is falsy (`if playwright_reviews:`) and adds nothing.  The source
formats the succeeded entry as the adapter name decorated with its record
count; we record the adapter name, the count being `reviews.length`. -/
def sourceStep (acc : List Record × List String) (s : SourceResult) :
    List Record × List String :=
  match s.outcome with
  | .error _ => acc
  | .ok reviews =>
    if reviews.isEmpty then acc
    else (acc.1 ++ reviews, acc.2 ++ [s.name])

/-- `MultiSourceScraper.scrape_all_sources` (multi_source_scraper.py
lines 18-268): process the primary tier of adapters in order; when fewer
than 10 records were collected, also process the fallback tier
(lines 230-258, `if len(all_reviews) < 10`); return
`(all_reviews, sources_succeeded)` (line 268).  Every adapter block is
wrapped in try/except, so the function is total: no adapter outcome makes
it raise. -/
def scrape_all_sources (primary fallback : List SourceResult) :
    List Record × List String :=
  let acc := primary.foldl sourceStep ([], [])
  if acc.1.length < 10 then fallback.foldl sourceStep acc else acc

/-- Specification-side description: the concatenated records of the
adapters that returned normally. -/
def recordsOf : List SourceResult → List Record
  | [] => []
  | s :: l =>
    (match s.outcome with
     | .ok reviews => reviews
     | .error _ => []) ++ recordsOf l

/-- Specification-side description: the names of the adapters that returned
at least one record, in order. -/
def succeededOf : List SourceResult → List String
  | [] => []
  | s :: l =>
    (match s.outcome with
     | .ok reviews => if reviews.isEmpty then [] else [s.name]
     | .error _ => []) ++ succeededOf l

theorem foldl_sourceStep (l : List SourceResult) :
    ∀ acc : List Record × List String,
      l.foldl sourceStep acc = (acc.1 ++ recordsOf l, acc.2 ++ succeededOf l) := by
  induction l with
  | nil => intro acc; simp [recordsOf, succeededOf]
  | cons s l ih =>
    intro acc
    cases hout : s.outcome with
    | error e =>
      simp [List.foldl, sourceStep, hout, recordsOf, succeededOf, ih]
    | ok reviews =>
      by_cases hemp : reviews.isEmpty
      · have hrev : reviews = [] := by simpa using hemp
        simp [List.foldl, sourceStep, hout, hrev, recordsOf, succeededOf, ih]
      · simp [List.foldl, sourceStep, hout, hemp, recordsOf, succeededOf, ih,
          List.append_assoc]

/-- C1: an exception raised by one adapter is caught at that adapter's
boundary and never aborts sibling adapters or the overall call: for every
mix of raising and succeeding adapters `scrape_all_sources` returns (it is
total by construction) the merged records of the normally returning
adapters together with the names of the adapters that returned at least one
record; on the spec's example (A: 5 records, B: raises, C: 3 records) it
returns 8 records with succeeded = [A, C]; and when every adapter raises it
returns ([], []). -/
theorem c1_orchestrator_absorbs_adapter_failures :
    (∀ primary fallback : List SourceResult,
      scrape_all_sources primary fallback =
        if (recordsOf primary).length < 10 then
          (recordsOf primary ++ recordsOf fallback,
           succeededOf primary ++ succeededOf fallback)
        else (recordsOf primary, succeededOf primary)) ∧
    (scrape_all_sources
        [⟨"A", .ok (List.replicate 5 ⟨"some review text", some 1, none, "A"⟩)⟩,
         ⟨"B", .error "adapter B raised"⟩,
         ⟨"C", .ok (List.replicate 3 ⟨"some review text", some 1, none, "C"⟩)⟩] []
      = (List.replicate 5 ⟨"some review text", some 1, none, "A"⟩ ++
           List.replicate 3 ⟨"some review text", some 1, none, "C"⟩,
         ["A", "C"])) ∧
    ((scrape_all_sources
        [⟨"A", .ok (List.replicate 5 ⟨"some review text", some 1, none, "A"⟩)⟩,
         ⟨"B", .error "adapter B raised"⟩,
         ⟨"C", .ok (List.replicate 3 ⟨"some review text", some 1, none, "C"⟩)⟩]
        []).1.length = 8) ∧
    (scrape_all_sources
        [⟨"A", .error "x"⟩, ⟨"B", .error "y"⟩, ⟨"C", .error "z"⟩]
        [⟨"G2", .error "w"⟩] = ([], [])) := by
  refine ⟨?_, by rfl, by rfl, by rfl⟩
  intro primary fallback
  simp [scrape_all_sources, foldl_sourceStep]

/-! ## Playwright G2 record construction (src/scraper/playwright_scraper.py) -/

/-- A parsed review element of a Playwright-rendered G2 page
(playwright_scraper.py lines 107-135): `reviewBody` is the stripped text of
the `itemprop="reviewBody"` div when that div is present (`none` models the
`continue` at lines 113-114), `rating` the star count of lines 118-123,
`date` the `datetime` attribute of lines 126-127. -/
structure PwElement where
  reviewBody : Option String
  rating : Nat
  date : String
  deriving DecidableEq, Repr

/-- The per-element body of the Playwright G2 page loop
(playwright_scraper.py lines 107-135): when the reviewBody div is present,
its text is appended as a record with source "G2" — with no emptiness or
minimum-length check on the text, unlike every other adapter. -/
def playwrightExtract (acc : List Record) (e : PwElement) : List Record :=
  match e.reviewBody with
  | none => acc
  | some text => acc ++ [⟨text, some e.rating, some e.date, "G2"⟩]

/-- C8 is falsified by the code: a G2 review element whose reviewBody div is
present but holds no text produces a record with empty `text`, and the
orchestrator returns it unfiltered, so the returned list contains a record
whose `text` is empty (the `source` field, "G2", is non-empty). -/
theorem c8_playwright_emits_empty_text :
    (scrape_all_sources
        [⟨"Playwright", .ok (playwrightExtract [] ⟨some "", 1, ""⟩)⟩] []).1
      = [⟨"", some 1, some "", "G2"⟩] ∧
    ∃ r ∈ (scrape_all_sources
        [⟨"Playwright", .ok (playwrightExtract [] ⟨some "", 1, ""⟩)⟩] []).1,
      r.text = "" := by
  refine ⟨by rfl, ⟨"", some 1, some "", "G2"⟩, ?_, rfl⟩
  simp [scrape_all_sources, playwrightExtract, sourceStep, List.foldl]

/-! ## G2 pagination loop (src/scraper/g2_scraper.py) -/

/-- A parsed candidate review element of a G2 listing page
(g2_scraper.py lines 54-101), with the text, rating and date extraction
heuristics abstracted into fields: `text` is the stripped review text (empty
when absent), `rating` the extracted numeric rating when one was found. -/
structure G2Element where
  text : String
  rating : Option Nat
  date : Option String
  deriving DecidableEq, Repr

/-- One fetched G2 listing page: its candidate review elements and whether a
next-page link is present (g2_scraper.py line 104). -/
structure G2Page where
  elements : List G2Element
  hasNext : Bool
  deriving Repr

/-- Why the page loop of `G2Scraper.scrape_reviews` stopped:
`emptyPage` is the break at lines 49-52 (`if not review_elements`),
`noNext` the first disjunct and `pageCap` the second disjunct of the break
at lines 104-106 (`if not next_page or page >= 10`), `maxRecords` the while
condition at line 26 (`while len(reviews) < max_reviews`). -/
inductive StopReason where
  | emptyPage
  | noNext
  | pageCap
  | maxRecords
  deriving DecidableEq, Repr

/-- The per-element body of the review loop (g2_scraper.py lines 54-101):
skip when the text is missing or shorter than 20 characters (line 66), and
append the record only when a rating was extracted, is truthy (a rating of
0 is falsy in `if rating and rating <= 2`) and is at most 2 (line 92). -/
def g2ProcessElement (acc : List Record) (e : G2Element) : List Record :=
  if e.text = "" ∨ e.text.length < 20 then acc
  else
    match e.rating with
    | none => acc
    | some r =>
      if r ≠ 0 ∧ r ≤ 2 then acc ++ [⟨e.text, some r, e.date, "G2"⟩] else acc

/-- The element loop (g2_scraper.py lines 54-101), which breaks as soon as
`max_reviews` records have been accumulated (lines 55-56). -/
def g2ProcessElements (max_reviews : Nat) : List Record → List G2Element → List Record
  | acc, [] => acc
  | acc, e :: es =>
    if max_reviews ≤ acc.length then acc
    else g2ProcessElements max_reviews (g2ProcessElement acc e) es

/-- The page loop of `G2Scraper.scrape_reviews` (g2_scraper.py
lines 26-129), error-free executions: `pages p` is the parse of the page
with `page=p`.  The loop variable `page` counts from 1 and the source's cap
check `page >= 10` (line 105) is carried as the remaining-page counter
`left = 10 - page` so that the recursion is structural.  Returns the
accumulated records, the number of pages fetched, and the reason the loop
stopped. -/
def g2Loop (pages : Nat → G2Page) (max_reviews : Nat) :
    Nat → Nat → List Record → List Record × Nat × StopReason
  | page, left, acc =>
    if max_reviews ≤ acc.length then (acc, 0, .maxRecords)
    else
      let pg := pages page
      if pg.elements.isEmpty then (acc, 1, .emptyPage)
      else
        let acc2 := g2ProcessElements max_reviews acc pg.elements
        if pg.hasNext = false then (acc2, 1, .noNext)
        else
          match left with
          | 0 => (acc2, 1, .pageCap)
          | left2 + 1 =>
            let r := g2Loop pages max_reviews (page + 1) left2 acc2
            (r.1, r.2.1 + 1, r.2.2)

/-- `G2Scraper.scrape_reviews` (g2_scraper.py lines 14-132) on its error-free
paths: run the page loop from page 1 (so `left = 9`) and return
`reviews[:max_reviews]` (line 132) with the fetched-page count and stop
reason exposed. -/
def scrape_reviews_g2 (pages : Nat → G2Page) (max_reviews : Nat) :
    List Record × Nat × StopReason :=
  let r := g2Loop pages max_reviews 1 9 []
  (r.1.take max_reviews, r.2.1, r.2.2)

/-- A valid review element: 20 characters of text and a 1-star rating. -/
def g2ValidElement : G2Element := ⟨"aaaaaaaaaaaaaaaaaaaa", some 1, none⟩

/-- Pages 1-10 hold one valid review each and advertise a next page;
page 11 is empty. -/
def c7OnePerPage : Nat → G2Page := fun p =>
  if p ≤ 10 then ⟨[g2ValidElement], true⟩ else ⟨[], true⟩

/-- Every page holds three valid reviews and advertises a next page. -/
def c7ThreePerPage : Nat → G2Page := fun _ =>
  ⟨[g2ValidElement, g2ValidElement, g2ValidElement], true⟩

/-- C7 is falsified on its first scenario: with pages 1-10 non-empty and
page 11 empty, the loop fetches exactly 10 pages but stops at the page-cap
check (`page >= 10`) after processing page 10 — the empty page 11 is never
requested, so the stop reason is the page cap, not the empty-page
condition. -/
theorem c7_page_cap_fires_not_empty_page :
    (scrape_reviews_g2 c7OnePerPage 30).2.1 = 10 ∧
    (scrape_reviews_g2 c7OnePerPage 30).2.2 = StopReason.pageCap ∧
    (scrape_reviews_g2 c7OnePerPage 30).2.2 ≠ StopReason.emptyPage := by
  refine ⟨rfl, rfl, by decide⟩

/-- C7 amended: an adapter whose pages 1-10 are non-empty (with next links)
fetches exactly 10 pages and stops due to the page cap, never requesting
page 11 (replacing page 11 by a non-empty page changes nothing); an adapter
capped at max_records = 7 with pages of 3 records each stops after 3 pages
having emitted exactly 7 records. -/
theorem c7_pagination_amended :
    (scrape_reviews_g2 c7OnePerPage 30).2.1 = 10 ∧
    (scrape_reviews_g2 c7OnePerPage 30).2.2 = StopReason.pageCap ∧
    (scrape_reviews_g2 c7OnePerPage 30).1.length = 10 ∧
    scrape_reviews_g2
        (fun p => if p = 11 then ⟨[g2ValidElement, g2ValidElement], true⟩
                  else c7OnePerPage p) 30
      = scrape_reviews_g2 c7OnePerPage 30 ∧
    (scrape_reviews_g2 c7ThreePerPage 7).1.length = 7 ∧
    (scrape_reviews_g2 c7ThreePerPage 7).2.1 = 3 ∧
    (scrape_reviews_g2 c7ThreePerPage 7).2.2 = StopReason.maxRecords := by
  refine ⟨rfl, rfl, rfl, rfl, rfl, rfl, rfl⟩

/-! ## Compliance throttling (src/utils/compliance.py, src/scraper/base.py) -/

/-- `ComplianceChecker.should_throttle` (compliance.py lines 80-99): true
exactly when the caller-tracked `request_count` is at least 1
(`if request_count >= 1`).  The `domain` and `time_window` parameters are
accepted, as in the source, but do not influence the result: the check has
no notion of elapsed time. -/
def should_throttle (domain : String) (request_count : Nat)
    (time_window : Nat := 1) : Bool :=
  1 ≤ request_count

/-- Map update for the `self.request_count` dict of `BaseScraper`. -/
def dictSet (m : String → Option Nat) (d : String) (v : Nat) :
    String → Option Nat :=
  fun x => if x = d then some v else m x

/-- The throttle fragment of `BaseScraper._fetch._make_request`
(base.py lines 138-149): when the domain was seen before and
`should_throttle` fires, sleep one second and reset the counter to 0; a
first request initializes the counter to 0; either way the counter is then
incremented.  Returns whether the caller slept and the updated map.  Note
that the wall-clock time of the request is not an input anywhere. -/
def make_request_throttle (request_count : String → Option Nat)
    (domain : String) : Bool × (String → Option Nat) :=
  match request_count domain with
  | some c =>
    if should_throttle domain c 1 then
      let m2 := dictSet request_count domain 0
      (true, dictSet m2 domain ((m2 domain).getD 0 + 1))
    else
      (false, dictSet request_count domain ((request_count domain).getD 0 + 1))
  | none =>
    let m2 := dictSet request_count domain 0
    (false, dictSet m2 domain ((m2 domain).getD 0 + 1))

/-- The claim's predicted throttle decision, following the spec's words:
delay exactly when the previous request to the domain was issued within the
minimum interval. -/
def spec_should_delay (elapsed_since_last : Nat) (min_interval : Nat) : Bool :=
  elapsed_since_last < min_interval

/-- C6 is falsified by the code: for two requests to the same domain issued
100 seconds apart with the default 1-second minimum interval, the code's
throttle consultation at the second request reports "delay" (the counter is
1) while the claim predicts "no delay"; elapsed time is not an input of the
code's check at all. -/
theorem c6_throttle_ignores_elapsed_time :
    (make_request_throttle (make_request_throttle (fun _ => none) "www.g2.com").2
        "www.g2.com").1 = true ∧
    spec_should_delay 100 1 = false ∧
    (make_request_throttle (make_request_throttle (fun _ => none) "www.g2.com").2
        "www.g2.com").1 ≠ spec_should_delay 100 1 := by
  refine ⟨by decide, rfl, by decide⟩

/-- C6 amended: the throttle check reports "delay" exactly when the
caller-tracked per-domain request count is at least 1, independent of any
elapsed time; under the caller protocol of base.py the first request to a
domain is not delayed and leaves the stored count at 1, and every
subsequent request to that domain is marked "should delay" — the second of
two checks inside the minimum interval, but equally a check made after the
interval has elapsed. -/
theorem c6_throttle_amended (m : String → Option Nat) (d : String)
    (hfirst : m d = none) :
    (make_request_throttle m d).1 = false ∧
    (make_request_throttle m d).2 d = some 1 ∧
    (make_request_throttle (make_request_throttle m d).2 d).1 = true ∧
    (make_request_throttle (make_request_throttle m d).2 d).2 d = some 1 := by
  simp [make_request_throttle, dictSet, hfirst, should_throttle]

/-- Witness for the amended C6 on a fresh request-count map and the G2
domain. -/
theorem c6_throttle_amended_witness :
    (make_request_throttle (fun _ => none) "www.g2.com").1 = false ∧
    (make_request_throttle (fun _ => none) "www.g2.com").2 "www.g2.com" = some 1 ∧
    (make_request_throttle (make_request_throttle (fun _ => none) "www.g2.com").2
        "www.g2.com").1 = true ∧
    (make_request_throttle (make_request_throttle (fun _ => none) "www.g2.com").2
        "www.g2.com").2 "www.g2.com" = some 1 :=
  c6_throttle_amended (fun _ => none) "www.g2.com" rfl

/-! ## Blocking vs non-blocking fetch decision logic
(src/scraper/base.py lines 96-221 and src/scraper/base_async.py
lines 104-181) -/

/-- Outcome of one underlying transport attempt as either fetch path
observes it: a response with a status code and a body length, a timeout, or
a connection failure. -/
inductive Transport where
  | response (status : Nat) (bodyLen : Nat)
  | timeout
  | connectionError
  deriving DecidableEq, Repr

/-- What one attempt of a fetch path does with a transport outcome:
return the response, or raise one of the listed error kinds. -/
inductive AttemptOutcome where
  | ok (status : Nat) (bodyLen : Nat)
  | httpError (status : Nat)
  | emptyBodyError
  | timeoutError
  | connectionError
  deriving DecidableEq, Repr

/-- One attempt of the blocking path: the response handling of
`_make_request` inside `BaseScraper._fetch` (base.py lines 152-173):
`raise_for_status` raises for status ≥ 400, and a response with an empty
body raises `ValueError("Empty response received")` (lines 163-165);
otherwise the response is returned.  (The scenario has robots.txt allowing
the URL and no throttle pause, identical on both paths.) -/
def sync_attempt (t : Transport) : AttemptOutcome :=
  match t with
  | .timeout => .timeoutError
  | .connectionError => .connectionError
  | .response status bodyLen =>
    if 400 ≤ status then .httpError status
    else if bodyLen = 0 then .emptyBodyError
    else .ok status bodyLen

/-- One attempt of the non-blocking path: the loop body of
`BaseAsyncScraper._fetch` (base_async.py lines 140-151): `raise_for_status`
raises for status ≥ 400; any other response is returned — there is no
empty-body check. -/
def async_attempt (t : Transport) : AttemptOutcome :=
  match t with
  | .timeout => .timeoutError
  | .connectionError => .connectionError
  | .response status bodyLen =>
    if 400 ≤ status then .httpError status
    else .ok status bodyLen

/-- Whether a raised attempt error is retried on the blocking path:
`_fetch` is decorated with `@retry_scraper(max_attempts=3)` (base.py
line 96) whose `retryable_exceptions` tuple ends in the catch-all
`Exception` (retry.py line 112), so every raised error is retried. -/
def sync_is_retried (o : AttemptOutcome) : Bool :=
  match o with
  | .ok _ _ => false
  | _ => true

/-- Whether a raised attempt error is retried on the non-blocking path
(base_async.py lines 153-177): timeouts and request errors are retried; an
HTTP status error only when the status is one of 429, 500, 502, 503, 504
(line 167), any other status re-raises immediately.  (`emptyBodyError` is
never produced on this path.) -/
def async_is_retried (o : AttemptOutcome) : Bool :=
  match o with
  | .ok _ _ => false
  | .timeoutError => true
  | .connectionError => true
  | .emptyBodyError => false
  | .httpError status => ([429, 500, 502, 503, 504] : List Nat).contains status

/-- C5 is falsified by the code: the two fetch paths do not implement
identical decision logic.  At the concrete transport outcome "status 200
with empty body" the blocking path raises while the non-blocking path
returns the response, and a 404 is retried by the blocking path's catch-all
retry decorator but is terminal for the non-blocking path. -/
theorem c5_fetch_paths_differ :
    sync_attempt (.response 200 0) ≠ async_attempt (.response 200 0) ∧
    sync_attempt (.response 200 0) = .emptyBodyError ∧
    async_attempt (.response 200 0) = .ok 200 0 ∧
    sync_is_retried (.httpError 404) = true ∧
    async_is_retried (.httpError 404) = false := by
  refine ⟨by decide, rfl, rfl, rfl, by decide⟩

/-- C5 amended: the two fetch paths classify timeouts, connection failures
and responses with a non-empty body (or an error status) identically, but
they are not identical: a 2xx response with an empty body is an error
(retried) on the blocking path and a success on the non-blocking path, and
a 404 is retried by the blocking path but terminal on the non-blocking
path. -/
theorem c5_fetch_paths_amended :
    (∀ status bodyLen : Nat, 400 ≤ status ∨ bodyLen ≠ 0 →
      sync_attempt (.response status bodyLen)
        = async_attempt (.response status bodyLen)) ∧
    sync_attempt .timeout = async_attempt .timeout ∧
    sync_attempt .connectionError = async_attempt .connectionError ∧
    sync_attempt (.response 200 0) = .emptyBodyError ∧
    async_attempt (.response 200 0) = .ok 200 0 ∧
    sync_is_retried (.httpError 404) = true ∧
    async_is_retried (.httpError 404) = false := by
  refine ⟨?_, rfl, rfl, rfl, rfl, rfl, by decide⟩
  intro status bodyLen h
  by_cases hs : 400 ≤ status
  · simp [sync_attempt, async_attempt, hs]
  · rcases h with h | h
    · exact absurd h hs
    · simp [sync_attempt, async_attempt, hs, h]

/-- Witness for the amended C5 at a 404 response with a 123-byte body. -/
theorem c5_fetch_paths_amended_witness :
    sync_attempt (.response 404 123) = async_attempt (.response 404 123) :=
  c5_fetch_paths_amended.1 404 123 (Or.inl (by decide))

/-! ## Circuit breaker registry (src/utils/circuit_breaker.py
lines 173-202) -/

/-- `get_circuit_breaker` over the module-level `_circuit_breakers` dict,
modelled as an association list: when `name` is absent a breaker is created
from the supplied configuration and stored; otherwise the stored breaker is
returned untouched and the supplied configuration is never consulted.
(`expected_exception` is a type-level filter in Python with no counterpart
in the embedded breaker state.) -/
def get_circuit_breaker (registry : List (String × CircuitBreaker))
    (name : String) (failure_threshold : Nat := 5) (timeout : Nat := 60) :
    CircuitBreaker × List (String × CircuitBreaker) :=
  match registry.lookup name with
  | some b => (b, registry)
  | none =>
    let b := CircuitBreaker.init failure_threshold timeout
    (b, (name, b) :: registry)

/-- C10: a second `get_circuit_breaker` call with the same name returns the
very breaker returned by the first call and leaves the registry unchanged;
the second call's configuration arguments are silently ignored, the breaker
keeping the failure threshold and timeout supplied by the creating call. -/
theorem c10_registry_reuses_first_breaker
    (registry : List (String × CircuitBreaker)) (name : String)
    (ft1 to1 ft2 to2 : Nat)
    (hnew : registry.lookup name = none) :
    (get_circuit_breaker (get_circuit_breaker registry name ft1 to1).2
        name ft2 to2).1
      = (get_circuit_breaker registry name ft1 to1).1 ∧
    (get_circuit_breaker (get_circuit_breaker registry name ft1 to1).2
        name ft2 to2).2
      = (get_circuit_breaker registry name ft1 to1).2 ∧
    (get_circuit_breaker registry name ft1 to1).1.failure_threshold = ft1 ∧
    (get_circuit_breaker registry name ft1 to1).1.timeout = to1 := by
  simp [get_circuit_breaker, hnew, List.lookup, CircuitBreaker.init]

/-- Witness for C10: an empty registry, name "scraper", first creation with
threshold 5 / timeout 60, second call with threshold 7 / timeout 30. -/
theorem c10_registry_reuses_first_breaker_witness :
    (get_circuit_breaker (get_circuit_breaker [] "scraper" 5 60).2
        "scraper" 7 30).1
      = (get_circuit_breaker [] "scraper" 5 60).1 ∧
    (get_circuit_breaker (get_circuit_breaker [] "scraper" 5 60).2
        "scraper" 7 30).2
      = (get_circuit_breaker [] "scraper" 5 60).2 ∧
    (get_circuit_breaker [] "scraper" 5 60).1.failure_threshold = 5 ∧
    (get_circuit_breaker [] "scraper" 5 60).1.timeout = 60 :=
  c10_registry_reuses_first_breaker [] "scraper" 5 60 7 30 rfl

end B2B
